import Mathlib

/-!
Shallow embedding of the peredast support-relay bot (src/database.py, src/config.py,
src/bot.py) and proofs about its relay-mapping, autoreply and audit behaviour.

Python dictionaries keyed by `str(id)` are modelled as insertion-ordered association
lists over `String` keys; `str` is injective on integers, so the keyed behaviour is
identical.  The audit TSV file is modelled as its list of data rows (the fixed header
row written by `_init_tsv_file` is always present and never read back as data:
`update_conversation`'s `len(rows) > 1` test is exactly "at least one data row").
Timestamps (`datetime.now().isoformat()`) are passed in explicitly as the string the
clock returned.  Outbound transport calls are modelled as emitted effects, assumed to
succeed and to return the fresh message id supplied by the caller of the handler.
-/

namespace Peredast

/-- Python `d.get(k)`: first (unique) binding of `k` in the dict, if any. -/
def pyGet {V : Type} (d : List (String × V)) (k : String) : Option V :=
  (d.find? (fun p => p.1 == k)).map (fun p => p.2)

/-- Python `d[k] = v`: upsert preserving insertion order — an existing binding is
overwritten in place, a new key is appended at the end. -/
def pySet {V : Type} (d : List (String × V)) (k : String) (v : V) : List (String × V) :=
  if d.any (fun p => p.1 == k) then
    d.map (fun p => if p.1 == k then (k, v) else p)
  else
    d ++ [(k, v)]

/-- Python `a or b` on strings: `a` unless `a` is falsy (empty), else `b`. -/
def pyStrOr (a b : String) : String :=
  if a == "" then b else a

/-- Python `pat in s` on strings: substring containment. -/
def pyInStr (pat s : String) : Bool :=
  decide (List.IsInfix pat.toList s.toList)

/-- Value stored by `store_message_mapping` (database.py lines 84-87): the dict
`{'user_message_id': ..., 'user_id': ...}` keyed by `str(group_message_id)`.
There is no source-group field in the stored value. -/
structure MessageMapping where
  user_message_id : Int
  user_id : Int
deriving DecidableEq, Repr

/-- Value stored by `store_autoreply_mapping` (database.py lines 99-103): the dict
`{'user_id': ..., 'question': ..., 'autoreply': ...}` keyed by
`str(autoreply_message_id)`.  There is no state field in the stored value. -/
structure AutoreplyMapping where
  user_id : Int
  question : String
  autoreply : String
deriving DecidableEq, Repr

/-- The JSON-backed store `SimpleDatabase.data` (database.py lines 22-27): four keyed
maps, persisted wholesale by `_save_data` after every mutation. -/
structure DBData where
  user_languages : List (String × String)
  message_mappings : List (String × MessageMapping)
  group_mappings : List (String × Int)
  autoreply_mappings : List (String × AutoreplyMapping)
deriving DecidableEq, Repr

/-- The fresh store produced by `_load_data` when no file exists (database.py 22-27). -/
def emptyDB : DBData :=
  { user_languages := [], message_mappings := [], group_mappings := [], autoreply_mappings := [] }

/-- database.py lines 73-76: `set_user_language` — unconditional upsert keyed by
`str(user_id)`, followed by a durable `_save_data`. -/
def set_user_language (db : DBData) (user_id : Int) (language : String) : DBData :=
  { db with user_languages := pySet db.user_languages (toString user_id) language }

/-- database.py lines 78-80: `get_user_language` — `.get(str(user_id), 'en')`. -/
def get_user_language (db : DBData) (user_id : Int) : String :=
  (pyGet db.user_languages (toString user_id)).getD "en"

/-- database.py lines 82-88: `store_message_mapping` — unconditional upsert keyed by
`str(group_message_id)`, followed by a durable `_save_data`.  The signature has
exactly three id parameters; no duplicate-key check is performed. -/
def store_message_mapping (db : DBData) (user_message_id group_message_id user_id : Int) : DBData :=
  { db with message_mappings :=
      (pySet db.message_mappings (toString group_message_id)
        { user_message_id := user_message_id, user_id := user_id }) }

/-- database.py lines 90-95: `get_user_from_group_message` — lookup returning the
pair `(user_id, user_message_id)` when the key is present, `None` otherwise. -/
def get_user_from_group_message (db : DBData) (group_message_id : Int) : Option (Int × Int) :=
  (pyGet db.message_mappings (toString group_message_id)).map
    (fun m => (m.user_id, m.user_message_id))

/-- database.py lines 97-104: `store_autoreply_mapping` — unconditional upsert keyed
by `str(autoreply_message_id)`, followed by a durable `_save_data`. -/
def store_autoreply_mapping (db : DBData) (autoreply_message_id user_id : Int)
    (question autoreply : String) : DBData :=
  { db with autoreply_mappings :=
      (pySet db.autoreply_mappings (toString autoreply_message_id)
        { user_id := user_id, question := question, autoreply := autoreply }) }

/-- database.py lines 106-108: `get_autoreply_info` — pure `.get` lookup. -/
def get_autoreply_info (db : DBData) (autoreply_message_id : Int) : Option AutoreplyMapping :=
  pyGet db.autoreply_mappings (toString autoreply_message_id)

/-- database.py lines 110-113: `store_group_mapping` — unconditional upsert. -/
def store_group_mapping (db : DBData) (group_id original_group_id : Int) : DBData :=
  { db with group_mappings := pySet db.group_mappings (toString group_id) original_group_id }

/-- database.py lines 115-117: `get_original_group` — pure `.get` lookup. -/
def get_original_group (db : DBData) (group_id : Int) : Option Int :=
  pyGet db.group_mappings (toString group_id)

/-- Python positional call of the bound method `SimpleDatabase.store_message_mapping`:
the `def` at database.py line 82 binds exactly three parameters after `self`, so a
call with any other number of positional arguments raises `TypeError` before the body
runs (this is how bot.py's four-argument call sites at lines 411, 424, 435, 683, …,
885, 898, 909, 975, … behave at runtime). -/
def store_message_mapping_call (db : DBData) (args : List Int) : Except Unit DBData :=
  match args with
  | [user_message_id, group_message_id, user_id] =>
      Except.ok (store_message_mapping db user_message_id group_message_id user_id)
  | _ => Except.error ()

/-- One data row of the audit TSV (database.py line 39 header:
Timestamp, Question, Autoreply, Manual reply, is_approved); `is_approved` is the
Python value written, `None` encoded as `none`. -/
structure TsvRow where
  timestamp : String
  question : String
  autoreply : String
  manual_reply : String
  is_approved : Option String
deriving DecidableEq, Repr

/-- database.py lines 45-52: `add_conversation` — appends one row.  Python defaults:
`autoreply=""`, `manual_reply=""`, `is_approved=None`; `timestamp=None` means "use
the clock now", so callers here always pass the clock's string explicitly. -/
def add_conversation (rows : List TsvRow) (question autoreply manual_reply : String)
    (is_approved : Option String) (timestamp : String) : List TsvRow :=
  rows ++ [{ timestamp := timestamp, question := question, autoreply := autoreply,
             manual_reply := manual_reply, is_approved := is_approved }]

/-- database.py lines 54-71: `update_conversation` — reads all rows back, and when at
least one data row exists (`len(rows) > 1`, counting the header) replaces the last
row wholesale with `[timestamp, question, autoreply, manual_reply, is_approved]` and
rewrites the file; otherwise it returns without raising and without writing.  The
Python defaults are the same as for `add_conversation`: a field the caller omits is
written as its default, not merged from the previous row. -/
def update_conversation (rows : List TsvRow) (question autoreply manual_reply : String)
    (is_approved : Option String) (timestamp : String) : List TsvRow :=
  if rows.isEmpty then rows
  else rows.dropLast ++ [{ timestamp := timestamp, question := question, autoreply := autoreply,
                           manual_reply := manual_reply, is_approved := is_approved }]

/-- Localized string table entry: one value of config.py's `LANGUAGES` dict. -/
structure LangStrings where
  name : String
  welcome : String
  language_selected : String
  message_forwarded : String
  reply_received : String
  error_occurred : String
  choose_language : String
  generated_reply : String
  approve : String
  discard : String
  reply_approved : String
  reply_discarded : String
  manual_reply_sent : String
  timestamp : String
deriving DecidableEq, Repr

/-- config.py lines 25-40: the English entry of `LANGUAGES`. -/
def lang_en : LangStrings :=
  { name := "English"
    welcome := "Welcome! Please choose your language:"
    language_selected := "Language set to English"
    message_forwarded := "Your message has been forwarded to the support team."
    reply_received := "You received a reply:"
    error_occurred := "An error occurred. Please try again."
    choose_language := "Please choose your language:"
    generated_reply := "Generated reply:"
    approve := "Approve"
    discard := "Discard"
    reply_approved := "Reply approved and sent to user."
    reply_discarded := "Reply discarded."
    manual_reply_sent := "Manual reply sent to user."
    timestamp := "Timestamp" }

/-- config.py lines 41-56: the Russian entry of `LANGUAGES`. -/
def lang_ru : LangStrings :=
  { name := "Русский"
    welcome := "Добро пожаловать! Пожалуйста, выберите ваш язык:"
    language_selected := "Язык установлен на русский"
    message_forwarded := "Ваше сообщение было отправлено в службу поддержки."
    reply_received := "Вы получили ответ:"
    error_occurred := "Произошла ошибка. Пожалуйста, попробуйте снова."
    choose_language := "Пожалуйста, выберите ваш язык:"
    generated_reply := "Сгенерированный ответ:"
    approve := "Одобрить"
    discard := "Отклонить"
    reply_approved := "Ответ одобрен и отправлен пользователю."
    reply_discarded := "Ответ отклонен."
    manual_reply_sent := "Ручной ответ отправлен пользователю."
    timestamp := "Временная метка" }

/-- config.py lines 57-72: the Georgian entry of `LANGUAGES`. -/
def lang_ka : LangStrings :=
  { name := "ქართული"
    welcome := "მოგესალმებათ! გთხოვთ აირჩიოთ თქვენი ენა:"
    language_selected := "ენა დაყენებულია ქართულად"
    message_forwarded := "თქვენი შეტყობინება გადაეცა მხარდაჭერის გუნდს."
    reply_received := "თქვენ მიიღეთ პასუხი:"
    error_occurred := "დაფიქსირდა შეცდომა. გთხოვთ სცადოთ თავიდან."
    choose_language := "გთხოვთ აირჩიოთ თქვენი ენა:"
    generated_reply := "გენერირებული პასუხი:"
    approve := "დამტკიცება"
    discard := "უარყოფა"
    reply_approved := "პასუხი დამტკიცებული და გაგზავნილია მომხმარებელთან."
    reply_discarded := "პასუხი უარყოფილია."
    manual_reply_sent := "ხელით დაწერილი პასუხი გაგზავნილია მომხმარებელთან."
    timestamp := "დროის ნიშანი" }

/-- config.py lines 24-73: the `LANGUAGES` dict; indexing with an unknown tag is a
Python `KeyError`, modelled as `none`. -/
def LANGUAGES (code : String) : Option LangStrings :=
  if code == "en" then some lang_en
  else if code == "ru" then some lang_ru
  else if code == "ka" then some lang_ka
  else none

/-- config.py line 75. -/
def DEFAULT_LANGUAGE : String := "en"

/-- Outbound transport operations emitted by a handler, in call order. -/
inductive Effect where
  | answerCallback
  | sendMessage (chat_id : Int) (text : String)
  | editMessage (text : String)
deriving DecidableEq, Repr

/-- In-process bot state a handler touches: the keyed store and the audit rows. -/
structure BotState where
  db : DBData
  tsv : List TsvRow
deriving DecidableEq, Repr

/-- bot.py lines 166-246: `handle_approval_callback`.  `action` and `message_id` are
the two halves of `query.data.split(chr 95)`; `now` is what `get_timestamp()`
returns during the call.  Transport sends and edits are modelled as succeeding.
On approve with a known mapping: send the stored reply to the stored user, rewrite
the last audit row with `is_approved="Approved"`, edit the control message.  On
discard with a known mapping: rewrite the last audit row with
`is_approved="Discarded"` and edit the control message; nothing is sent to the user.
An unknown `message_id` edits an error text; an unknown language tag raises
`KeyError` inside the `try`, caught by the `except` arm which edits the generic
error text.  Note the handler never writes to `self.data`: no state is recorded on
the autoreply mapping and no repeat-decision check exists. -/
def handle_approval_callback (st : BotState) (action : String) (message_id : Int)
    (now : String) : BotState × List Effect :=
  if action == "approve" then
    match get_autoreply_info st.db message_id with
    | some info =>
      match LANGUAGES (get_user_language st.db info.user_id) with
      | some l =>
          ({ st with tsv := (update_conversation st.tsv info.question info.autoreply ""
                              (some "Approved") now) },
           [Effect.answerCallback,
            Effect.sendMessage info.user_id (l.generated_reply ++ "\n\n" ++ info.autoreply),
            Effect.editMessage (l.generated_reply ++ "\n\n" ++ info.autoreply ++ "\n\n✅ " ++
              l.reply_approved)])
      | none =>
          (st, [Effect.answerCallback, Effect.editMessage "Error occurred while approving autoreply"])
    | none =>
        (st, [Effect.answerCallback, Effect.editMessage "Error: Autoreply info not found"])
  else if action == "discard" then
    match get_autoreply_info st.db message_id with
    | some info =>
      match LANGUAGES (get_user_language st.db info.user_id) with
      | some l =>
          ({ st with tsv := (update_conversation st.tsv info.question info.autoreply ""
                              (some "Discarded") now) },
           [Effect.answerCallback,
            Effect.editMessage (l.generated_reply ++ "\n\n" ++ info.autoreply ++ "\n\n❌ " ++
              l.reply_discarded)])
      | none =>
          (st, [Effect.answerCallback, Effect.editMessage "Error occurred while discarding autoreply"])
    | none =>
        (st, [Effect.answerCallback, Effect.editMessage "Error: Autoreply info not found"])
  else
    (st, [Effect.answerCallback])

/-- One Telegram message entity, as read by `is_bot_mentioned`. -/
structure MessageEntity where
  etype : String
  offset : Nat
  length : Nat
deriving DecidableEq, Repr

/-- Python `s[i:j]` slicing on strings (by code point). -/
def pySlice (s : String) (i j : Nat) : String :=
  String.mk ((s.toList.drop i).take (j - i))

/-- Python f-string interpolation of an `Optional[str]`: `None` prints as "None". -/
def pyStrOfOpt (o : Option String) : String :=
  match o with
  | some s => s
  | none => "None"

/-- Replace every non-overlapping occurrence of `pat` (nonempty) in the character
list, scanning left to right — the semantics of Python `str.replace` for the
nonempty patterns used in this code.  `fuel` bounds the recursion structurally;
called with `fuel = l.length` it never runs out, since every step consumes at
least one character. -/
def replaceCharsAux (pat rep : List Char) : Nat → List Char → List Char
  | _, [] => []
  | 0, l => l
  | fuel + 1, c :: rest =>
    if pat ≠ [] ∧ pat.isPrefixOf (c :: rest) then
      rep ++ replaceCharsAux pat rep fuel ((c :: rest).drop pat.length)
    else
      c :: replaceCharsAux pat rep fuel rest

/-- Python `s.replace(pat, rep)` for nonempty `pat`. -/
def pyReplace (s pat rep : String) : String :=
  String.mk (replaceCharsAux pat.toList rep.toList s.toList.length s.toList)

/-- Python `s.strip()`: drop leading and trailing whitespace. -/
def pyStrip (s : String) : String :=
  String.mk (((s.toList.dropWhile Char.isWhitespace).reverse.dropWhile Char.isWhitespace).reverse)

/-- bot.py lines 248-293: `is_bot_mentioned` — true when the bot's username appears
as `@name` or `/name` as a substring of the text or the caption, or as an exact
`mention`/`bot_command` entity slice of the text. -/
def is_bot_mentioned (bot_username : Option String) (text caption : Option String)
    (entities : List MessageEntity) : Bool :=
  match bot_username with
  | none => false
  | some bu =>
    if bu == "" then false
    else
      let t := text.getD ""
      let c := caption.getD ""
      (t != "" && (pyInStr ("@" ++ bu) t || pyInStr ("/" ++ bu) t)) ||
      (c != "" && (pyInStr ("@" ++ bu) c || pyInStr ("/" ++ bu) c)) ||
      entities.any (fun e =>
        (e.etype == "mention" && pySlice t e.offset (e.offset + e.length) == "@" ++ bu) ||
        (e.etype == "bot_command" && pySlice t e.offset (e.offset + e.length) == "/" ++ bu))

/-- Static configuration a group-mention event sees (config.py lines 16-18 plus the
transport-supplied bot username). -/
structure BotConfig where
  group_id : Int
  topic_id : Option Int
  bot_username : Option String
deriving Repr

/-- One inbound group message as the handlers read it. -/
structure GroupMsg where
  message_id : Int
  chat_id : Int
  chat_title : Option String
  user_id : Int
  username : Option String
  first_name : String
  last_name : Option String
  text : Option String
  caption : Option String
  entities : List MessageEntity
deriving Repr

/-- bot.py lines 843-931: `handle_group_mention` (standalone text mention in a
group).  When the bot is not mentioned, or the message has no (nonempty) text, or
nothing remains after stripping the `@username` token, the handler returns without
side effects.  Otherwise it sends the tagged message to `GROUP_ID` (with or without
`TOPIC_ID` — both branches then run the same store call) and then calls
`db.store_message_mapping(update.message.message_id, sent_message.message_id,
user.id, group_id)` with FOUR positional arguments; the binding against the
three-parameter method is modelled by `store_message_mapping_call`, whose
`TypeError` aborts the `try` block, so the `except` arm sends the error notice to
the originating group and the confirmation is never sent.  `sent_message_id` is the
id the transport assigns to the forwarded copy. -/
def handle_group_mention (cfg : BotConfig) (st : BotState) (msg : GroupMsg)
    (sent_message_id : Int) : BotState × List Effect :=
  if !(is_bot_mentioned cfg.bot_username msg.text msg.caption msg.entities) then (st, [])
  else if (msg.text.getD "") == "" then (st, [])
  else
    let text := msg.text.getD ""
    let reply_text := pyStrip (pyReplace text ("@" ++ pyStrOfOpt cfg.bot_username) "")
    if reply_text == "" then (st, [])
    else
      let user_handle := pyStrOr (msg.username.getD "")
        (pyStrip (msg.first_name ++ " " ++ (msg.last_name.getD "")))
      let source_group_title := pyStrOr (msg.chat_title.getD "")
        ("Group " ++ toString msg.chat_id)
      let full_message := "From group: " ++ source_group_title ++ "\nFrom user: @" ++
        user_handle ++ "\n\n" ++ reply_text
      match store_message_mapping_call st.db
          [msg.message_id, sent_message_id, msg.user_id, msg.chat_id] with
      | Except.ok db2 =>
          ({ st with db := db2 },
           [Effect.sendMessage cfg.group_id full_message,
            Effect.sendMessage msg.chat_id "✅ Your message has been forwarded to the support team."])
      | Except.error _ =>
          (st,
           [Effect.sendMessage cfg.group_id full_message,
            Effect.sendMessage msg.chat_id "❌ An error occurred while forwarding your message."])

/-- Kinds of store/transport operations a private-chat handler performs, used to
state the order in which they happen within one inbound event. -/
inductive Step where
  | transportSend
  | storeMapping
  | auditAppend
  | storeAutoreply
  | auditUpdate
  | confirmSender
deriving DecidableEq, Repr

/-- bot.py lines 93-160, `handle_private_message` success path, in statement order:
send the forwarded copy (98-108), `store_message_mapping` (114), `add_conversation`
(118); when `SEMI_AUTOREPLY_MODE` (121-153): send the control message (138-143),
`store_autoreply_mapping` (149), `update_conversation` (153); finally the sender
confirmation (159). -/
def handle_private_message_steps (semi_autoreply_mode : Bool) : List Step :=
  [Step.transportSend, Step.storeMapping, Step.auditAppend] ++
  (if semi_autoreply_mode then [Step.transportSend, Step.storeAutoreply, Step.auditUpdate]
   else []) ++
  [Step.confirmSender]

/-- bot.py lines 480-578, `handle_media_message` success path, in statement order:
send the media copy (483-522), `store_message_mapping` (531), `add_conversation`
(536); when `SEMI_AUTOREPLY_MODE` (539-571): send the control message (556-561),
`store_autoreply_mapping` (567), `update_conversation` (571); finally the sender
confirmation (577). -/
def handle_media_message_steps (semi_autoreply_mode : Bool) : List Step :=
  [Step.transportSend, Step.storeMapping, Step.auditAppend] ++
  (if semi_autoreply_mode then [Step.transportSend, Step.storeAutoreply, Step.auditUpdate]
   else []) ++
  [Step.confirmSender]

/-- Method-call semantics of `get_user_language` (database.py 78-80): the call
returns its value together with `self.data` as the body leaves it — the body is a
single `.get` and neither assigns to `self.data` nor calls `_save_data`. -/
def get_user_language_call (db : DBData) (user_id : Int) : String × DBData :=
  (get_user_language db user_id, db)

/-- Method-call semantics of `get_user_from_group_message` (database.py 90-95): a
`.get` plus a tuple projection; no write to `self.data`, no `_save_data`. -/
def get_user_from_group_message_call (db : DBData) (group_message_id : Int) :
    Option (Int × Int) × DBData :=
  (get_user_from_group_message db group_message_id, db)

/-- Method-call semantics of `get_autoreply_info` (database.py 106-108): a single
`.get`; no write to `self.data`, no `_save_data`. -/
def get_autoreply_info_call (db : DBData) (autoreply_message_id : Int) :
    Option AutoreplyMapping × DBData :=
  (get_autoreply_info db autoreply_message_id, db)

/-- Method-call semantics of `get_original_group` (database.py 115-117): a single
`.get`; no write to `self.data`, no `_save_data`. -/
def get_original_group_call (db : DBData) (group_id : Int) : Option Int × DBData :=
  (get_original_group db group_id, db)

/-! Key lemmas about the Python-dict model. -/

/-- Helper: overwriting map keeps the first hit at the key. -/
theorem find?_map_overwrite {V : Type} (k : String) (v : V) :
    ∀ (d : List (String × V)), d.any (fun p => p.1 == k) = true →
      (d.map (fun p => if p.1 == k then (k, v) else p)).find? (fun p => p.1 == k) = some (k, v) := by
  intro d
  induction d with
  | nil => intro h; simp at h
  | cons hd tl ih =>
      intro h
      by_cases hk : hd.1 == k
      · simp [List.find?, hk]
      · simp only [List.any_cons, Bool.or_eq_true] at h
        rcases h with h | h
        · exact absurd h hk
        · simp only [List.map_cons, if_neg hk, List.find?]
          rw [show ((hd.1 == k) = false) from Bool.eq_false_iff.mpr hk]
          exact ih h

/-- Helper: a list with no hit at the key finds nothing there. -/
theorem find?_none_of_not_any {V : Type} (k : String) :
    ∀ (d : List (String × V)), d.any (fun p => p.1 == k) = false →
      d.find? (fun p => p.1 == k) = none := by
  intro d
  induction d with
  | nil => intro _; rfl
  | cons hd tl ih =>
      intro h
      simp only [List.any_cons, Bool.or_eq_false_iff] at h
      simp only [List.find?, h.1]
      exact ih h.2

/-- Reading a key just written returns the written value (Python dict semantics). -/
theorem pyGet_pySet_self {V : Type} (d : List (String × V)) (k : String) (v : V) :
    pyGet (pySet d k v) k = some v := by
  unfold pyGet pySet
  by_cases h : d.any (fun p => p.1 == k) = true
  · rw [if_pos h, find?_map_overwrite k v d h]
    rfl
  · rw [if_neg h, List.find?_append,
        find?_none_of_not_any k d (Bool.eq_false_iff.mpr h)]
    simp [List.find?]

/-- Helper: an everywhere-before-b-in-every-bounded-prefix fact extends to all
prefixes, since `take` stabilises at the list's length. -/
theorem mem_take_before (l : List Step) (a b : Step)
    (h : ∀ n, n ≤ l.length → (b ∈ l.take n → a ∈ l.take n)) :
    ∀ n, b ∈ l.take n → a ∈ l.take n := by
  intro n hb
  by_cases hn : n ≤ l.length
  · exact h n hn hb
  · have hlen : l.length ≤ n := le_of_not_le hn
    rw [List.take_of_length_le hlen] at hb ⊢
    have := h l.length le_rfl
    rw [List.take_length] at this
    exact this hb

/-! Theorems settling the claims. -/

/-- C1: relay-map round-trip as the store actually implements it.  An unrecorded
`relay_message_id` resolves to `None`; after `store_message_mapping`, resolving the
same id returns exactly the two stored fields `(user_id, user_message_id)` — the
stored record has no `source_group_id` field at all, and the four-argument call
bot.py makes to pass one (e.g. bot.py line 885) fails to bind (`TypeError`). -/
theorem C1_relay_map_roundtrip (db : DBData) (a k u g : Int)
    (h : pyGet db.message_mappings (toString k) = none) :
    get_user_from_group_message db k = none ∧
    get_user_from_group_message (store_message_mapping db a k u) k = some (u, a) ∧
    store_message_mapping_call db [a, k, u, g] = Except.error () := by
  refine ⟨?_, ?_, rfl⟩
  · unfold get_user_from_group_message
    rw [h]
    rfl
  · unfold get_user_from_group_message store_message_mapping
    rw [show ({ db with message_mappings :=
          (pySet db.message_mappings (toString k)
            { user_message_id := a, user_id := u }) } : DBData).message_mappings =
        pySet db.message_mappings (toString k) { user_message_id := a, user_id := u } from rfl,
      pyGet_pySet_self]
    rfl

/-- Witness for C1 at a concrete store and ids. -/
theorem C1_relay_map_roundtrip_witness :
    pyGet emptyDB.message_mappings (toString (5 : Int)) = none ∧
    (get_user_from_group_message emptyDB 5 = none ∧
     get_user_from_group_message (store_message_mapping emptyDB 10 5 7) 5 = some (7, 10) ∧
     store_message_mapping_call emptyDB [10, 5, 7, 42] = Except.error ()) :=
  ⟨by decide, C1_relay_map_roundtrip emptyDB 10 5 7 42 (by decide)⟩

/-- C3 counterexample: a second `store_message_mapping` on an already-present
`relay_message_id` does not fail and does not leave the first record unchanged — it
silently overwrites it (the lookup afterwards returns the second record). -/
theorem C3_duplicate_insert_counterexample :
    get_user_from_group_message
        (store_message_mapping (store_message_mapping emptyDB 10 5 1) 20 5 2) 5
      = some (2, 20) ∧
    some ((2 : Int), (20 : Int)) ≠ some ((1 : Int), (10 : Int)) := by
  decide

/-- C3 as amended: `store_message_mapping` is an unconditional upsert — called with
a `relay_message_id` that already exists it succeeds and overwrites the existing
record (last write wins); no duplicate-key failure exists in the code. -/
theorem C3_duplicate_insert_overwrites (db : DBData) (a k u : Int) :
    get_user_from_group_message (store_message_mapping db a k u) k = some (u, a) := by
  unfold get_user_from_group_message store_message_mapping
  rw [show ({ db with message_mappings :=
        (pySet db.message_mappings (toString k)
          { user_message_id := a, user_id := u }) } : DBData).message_mappings =
      pySet db.message_mappings (toString k) { user_message_id := a, user_id := u } from rfl,
    pyGet_pySet_self]
  rfl

/-- C4 counterexample: the last audit row holds `autoreply="auto"`; a later
`update_conversation` that omits `autoreply` (Python default `""`) clears it rather
than retaining it. -/
theorem C4_update_last_counterexample :
    update_conversation
        [{ timestamp := "t0", question := "q", autoreply := "auto", manual_reply := "",
           is_approved := none }] "q" "" "" none "t1"
      = [{ timestamp := "t1", question := "q", autoreply := "", manual_reply := "",
           is_approved := none }] ∧
    ("" : String) ≠ "auto" := by
  decide

/-- C4 as amended: on a non-empty log `update_conversation` rewrites only the last
row, leaving every earlier row unchanged, but it replaces that row wholesale with
the values supplied in the call — a field the caller omits is written as its Python
default (empty string / `None` / fresh timestamp), not merged from the old row. -/
theorem C4_update_last_replaces_row (rows : List TsvRow) (q a m : String)
    (app : Option String) (t : String) (h : rows ≠ []) :
    (update_conversation rows q a m app t).dropLast = rows.dropLast ∧
    (update_conversation rows q a m app t).getLast?
      = some { timestamp := t, question := q, autoreply := a, manual_reply := m,
               is_approved := app } := by
  unfold update_conversation
  rw [if_neg (by simpa using h)]
  constructor
  · exact List.dropLast_concat ..
  · exact List.getLast?_concat ..

/-- Witness for C4 at a concrete two-row log. -/
theorem C4_update_last_replaces_row_witness :
    ([{ timestamp := "t0", question := "p", autoreply := "", manual_reply := "",
        is_approved := none },
      { timestamp := "t1", question := "q", autoreply := "auto", manual_reply := "",
        is_approved := none }] : List TsvRow) ≠ [] ∧
    ((update_conversation
        [{ timestamp := "t0", question := "p", autoreply := "", manual_reply := "",
           is_approved := none },
         { timestamp := "t1", question := "q", autoreply := "auto", manual_reply := "",
           is_approved := none }] "q" "" "x" none "t2").dropLast
       = ([{ timestamp := "t0", question := "p", autoreply := "", manual_reply := "",
             is_approved := none },
           { timestamp := "t1", question := "q", autoreply := "auto", manual_reply := "",
             is_approved := none }] : List TsvRow).dropLast ∧
     (update_conversation
        [{ timestamp := "t0", question := "p", autoreply := "", manual_reply := "",
           is_approved := none },
         { timestamp := "t1", question := "q", autoreply := "auto", manual_reply := "",
           is_approved := none }] "q" "" "x" none "t2").getLast?
       = some { timestamp := "t2", question := "q", autoreply := "", manual_reply := "x",
                is_approved := none }) :=
  ⟨by decide,
   C4_update_last_replaces_row
     [{ timestamp := "t0", question := "p", autoreply := "", manual_reply := "",
        is_approved := none },
      { timestamp := "t1", question := "q", autoreply := "auto", manual_reply := "",
        is_approved := none }] "q" "" "x" none "t2" (by decide)⟩

/-- C5 counterexample: on a log with no data rows, `update_conversation` returns
normally with the log untouched — it succeeds silently instead of failing. -/
theorem C5_update_empty_counterexample :
    update_conversation [] "q" "" "" none "t1" = [] := by
  decide

/-- C5 as amended: when no data row has been appended yet (`len(rows) > 1` is false,
counting the header), `update_conversation` is a silent no-op: it raises nothing and
writes nothing, leaving the file unchanged. -/
theorem C5_update_empty_noop (q a m : String) (app : Option String) (t : String) :
    update_conversation [] q a m app t = [] := rfl

/-- C9: `get_user_language` returns the configured default `"en"` for a user with no
stored preference and never fails; after any `set_user_language`, it returns the
most recent tag set for that user (last write wins over any prior history). -/
theorem C9_language_preference (db : DBData) (u : Int) (l l' : String)
    (h : pyGet db.user_languages (toString u) = none) :
    get_user_language db u = "en" ∧
    "en" = DEFAULT_LANGUAGE ∧
    get_user_language (set_user_language db u l) u = l ∧
    get_user_language (set_user_language (set_user_language db u l') u l) u = l := by
  refine ⟨?_, rfl, ?_, ?_⟩
  · unfold get_user_language
    rw [h]
    rfl
  · unfold get_user_language set_user_language
    rw [show ({ db with user_languages := pySet db.user_languages (toString u) l } :
        DBData).user_languages = pySet db.user_languages (toString u) l from rfl,
      pyGet_pySet_self]
    rfl
  · unfold get_user_language set_user_language
    simp [pyGet_pySet_self]

/-- Witness for C9 at a concrete fresh store. -/
theorem C9_language_preference_witness :
    pyGet emptyDB.user_languages (toString (5 : Int)) = none ∧
    (get_user_language emptyDB 5 = "en" ∧
     "en" = DEFAULT_LANGUAGE ∧
     get_user_language (set_user_language emptyDB 5 "ru") 5 = "ru" ∧
     get_user_language (set_user_language (set_user_language emptyDB 5 "ka") 5 "ru") 5 = "ru") :=
  ⟨by decide, C9_language_preference emptyDB 5 "ru" "ka" (by decide)⟩

/-- C10: every read on the stores — `get_user_language`,
`get_user_from_group_message`, `get_autoreply_info`, `get_original_group` — is pure:
the call leaves all keyed maps (and, a fortiori, the audit log, which they never
touch) unchanged, and an immediate second call on the resulting state returns the
same value. -/
theorem C10_reads_pure (db : DBData) (u gm am g : Int) :
    (get_user_language_call db u).2 = db ∧
    (get_user_from_group_message_call db gm).2 = db ∧
    (get_autoreply_info_call db am).2 = db ∧
    (get_original_group_call db g).2 = db ∧
    (get_user_language_call (get_user_language_call db u).2 u).1
      = (get_user_language_call db u).1 ∧
    (get_user_from_group_message_call (get_user_from_group_message_call db gm).2 gm).1
      = (get_user_from_group_message_call db gm).1 ∧
    (get_autoreply_info_call (get_autoreply_info_call db am).2 am).1
      = (get_autoreply_info_call db am).1 ∧
    (get_original_group_call (get_original_group_call db g).2 g).1
      = (get_original_group_call db g).1 :=
  ⟨rfl, rfl, rfl, rfl, rfl, rfl, rfl, rfl⟩

/-- C8: within one inbound event, in both `handle_private_message` and
`handle_media_message` and for either value of `SEMI_AUTOREPLY_MODE`, every prefix
of the handler's operation sequence that contains the audit write already contains
the durable store mutation it references (`store_message_mapping` before
`add_conversation`; `store_autoreply_mapping` before `update_conversation`). -/
theorem C8_mutation_before_audit (semi : Bool) (n : Nat) :
    (Step.auditAppend ∈ (handle_private_message_steps semi).take n →
       Step.storeMapping ∈ (handle_private_message_steps semi).take n) ∧
    (Step.auditUpdate ∈ (handle_private_message_steps semi).take n →
       Step.storeAutoreply ∈ (handle_private_message_steps semi).take n) ∧
    (Step.auditAppend ∈ (handle_media_message_steps semi).take n →
       Step.storeMapping ∈ (handle_media_message_steps semi).take n) ∧
    (Step.auditUpdate ∈ (handle_media_message_steps semi).take n →
       Step.storeAutoreply ∈ (handle_media_message_steps semi).take n) := by
  cases semi <;>
    exact ⟨mem_take_before _ _ _ (by decide) n, mem_take_before _ _ _ (by decide) n,
           mem_take_before _ _ _ (by decide) n, mem_take_before _ _ _ (by decide) n⟩

/-- Witness for C8: the three-step prefix of the private-message sequence that ends
at the audit append already contains the mapping store. -/
theorem C8_mutation_before_audit_witness :
    Step.auditAppend ∈ (handle_private_message_steps true).take 3 ∧
    Step.storeMapping ∈ (handle_private_message_steps true).take 3 :=
  ⟨by decide, (C8_mutation_before_audit true 3).1 (by decide)⟩

/-- Concrete bot state holding one autoreply mapping (control message 7 for user 5)
and the matching audit row, as left by a private-message event. -/
def sampleApprovalState : BotState :=
  { db := { user_languages := [], message_mappings := [], group_mappings := [],
            autoreply_mappings := [("7", { user_id := 5, question := "Hi", autoreply := "Auto" })] },
    tsv := [{ timestamp := "t0", question := "Hi", autoreply := "Auto", manual_reply := "",
              is_approved := none }] }

/-- C2 counterexample: after one approve decision on control message 7, a second
approve call on the same id does not fail — it delivers the stored reply to the
user again, and the keyed store after both calls is exactly the original one (no
terminal state was ever recorded). -/
theorem C2_repeat_decide_counterexample :
    Effect.sendMessage 5 ("Generated reply:" ++ "\n\n" ++ "Auto")
      ∈ (handle_approval_callback (handle_approval_callback sampleApprovalState "approve" 7 "t1").1
           "approve" 7 "t2").2 ∧
    ((handle_approval_callback (handle_approval_callback sampleApprovalState "approve" 7 "t1").1
        "approve" 7 "t2").1).db = sampleApprovalState.db := by
  decide

/-- C2 as amended: the code stores no state on an autoreply record and has no
`AlreadyDecided` failure.  `handle_approval_callback` never writes to the keyed
store, so a repeated approve callback on the same `control_message_id` finds the
same record and repeats all its effects — including sending the stored reply to the
user again. -/
theorem C2_repeat_decide_not_rejected (st : BotState) (m : Int) (t t' : String)
    (info : AutoreplyMapping) (l : LangStrings)
    (hinfo : get_autoreply_info st.db m = some info)
    (hl : LANGUAGES (get_user_language st.db info.user_id) = some l) :
    ((handle_approval_callback st "approve" m t).1).db = st.db ∧
    (handle_approval_callback (handle_approval_callback st "approve" m t).1 "approve" m t').2
      = (handle_approval_callback st "approve" m t).2 ∧
    Effect.sendMessage info.user_id (l.generated_reply ++ "\n\n" ++ info.autoreply)
      ∈ (handle_approval_callback (handle_approval_callback st "approve" m t).1 "approve" m t').2 := by
  simp [handle_approval_callback, hinfo, hl]

/-- Witness for C2 at the concrete state. -/
theorem C2_repeat_decide_not_rejected_witness :
    (get_autoreply_info sampleApprovalState.db 7
       = some { user_id := 5, question := "Hi", autoreply := "Auto" } ∧
     LANGUAGES (get_user_language sampleApprovalState.db 5) = some lang_en) ∧
    (((handle_approval_callback sampleApprovalState "approve" 7 "t1").1).db
       = sampleApprovalState.db ∧
     (handle_approval_callback (handle_approval_callback sampleApprovalState "approve" 7 "t1").1
         "approve" 7 "t2").2
       = (handle_approval_callback sampleApprovalState "approve" 7 "t1").2 ∧
     Effect.sendMessage 5 (lang_en.generated_reply ++ "\n\n" ++ "Auto")
       ∈ (handle_approval_callback (handle_approval_callback sampleApprovalState "approve" 7 "t1").1
            "approve" 7 "t2").2) :=
  ⟨⟨by decide, by decide⟩,
   C2_repeat_decide_not_rejected sampleApprovalState 7 "t1" "t2"
     { user_id := 5, question := "Hi", autoreply := "Auto" } lang_en (by decide) (by decide)⟩

/-- C7 counterexample: a discard decision leaves the keyed store — including the
autoreply record for control message 7 — exactly as it was, so no state of the
record became `Discarded`; and an immediately repeated discard call succeeds with
identical effects instead of being rejected. -/
theorem C7_discard_counterexample :
    ((handle_approval_callback sampleApprovalState "discard" 7 "t1").1).db
      = sampleApprovalState.db ∧
    get_autoreply_info ((handle_approval_callback sampleApprovalState "discard" 7 "t1").1).db 7
      = some { user_id := 5, question := "Hi", autoreply := "Auto" } ∧
    (handle_approval_callback (handle_approval_callback sampleApprovalState "discard" 7 "t1").1
        "discard" 7 "t2").2
      = (handle_approval_callback sampleApprovalState "discard" 7 "t1").2 := by
  decide

/-- C7 as amended: on a discard decision for a known control message, the keyed
store is left unchanged (the stored autoreply record has no state field and is not
touched), no message is sent to any chat, the audit log's last row is rewritten
with `is_approved="Discarded"` (question and reply text from the record, manual
reply reset to the default), and the control message is edited to show the
discarded text. -/
theorem C7_discard_outcome (st : BotState) (m : Int) (t : String)
    (info : AutoreplyMapping) (l : LangStrings)
    (hinfo : get_autoreply_info st.db m = some info)
    (hl : LANGUAGES (get_user_language st.db info.user_id) = some l)
    (htsv : st.tsv ≠ []) :
    ((handle_approval_callback st "discard" m t).1).db = st.db ∧
    (∀ c txt, Effect.sendMessage c txt ∉ (handle_approval_callback st "discard" m t).2) ∧
    ((handle_approval_callback st "discard" m t).1).tsv.getLast?
      = some { timestamp := t, question := info.question, autoreply := info.autoreply,
               manual_reply := "", is_approved := some "Discarded" } ∧
    Effect.editMessage (l.generated_reply ++ "\n\n" ++ info.autoreply ++ "\n\n❌ " ++
        l.reply_discarded)
      ∈ (handle_approval_callback st "discard" m t).2 := by
  have hne : ¬ st.tsv.isEmpty = true := by simpa using htsv
  have hb1 : (("discard" : String) == "approve") = false := by decide
  refine ⟨?_, ?_, ?_, ?_⟩ <;>
    simp [handle_approval_callback, hb1, hinfo, hl, update_conversation, hne,
      List.getLast?_concat]

/-- Witness for C7 at the concrete state. -/
theorem C7_discard_outcome_witness :
    (get_autoreply_info sampleApprovalState.db 7
       = some { user_id := 5, question := "Hi", autoreply := "Auto" } ∧
     LANGUAGES (get_user_language sampleApprovalState.db 5) = some lang_en ∧
     sampleApprovalState.tsv ≠ []) ∧
    (((handle_approval_callback sampleApprovalState "discard" 7 "t1").1).db
       = sampleApprovalState.db ∧
     (∀ c txt, Effect.sendMessage c txt
        ∉ (handle_approval_callback sampleApprovalState "discard" 7 "t1").2) ∧
     ((handle_approval_callback sampleApprovalState "discard" 7 "t1").1).tsv.getLast?
       = some { timestamp := "t1", question := "Hi", autoreply := "Auto",
                manual_reply := "", is_approved := some "Discarded" } ∧
     Effect.editMessage (lang_en.generated_reply ++ "\n\n" ++ "Auto" ++ "\n\n❌ " ++
         lang_en.reply_discarded)
       ∈ (handle_approval_callback sampleApprovalState "discard" 7 "t1").2) :=
  ⟨⟨by decide, by decide, by decide⟩,
   C7_discard_outcome sampleApprovalState 7 "t1"
     { user_id := 5, question := "Hi", autoreply := "Auto" } lang_en
     (by decide) (by decide) (by decide)⟩

/-- Concrete configuration for the group-mention scenario: support destination is
chat 100, no topic, bot username "bot". -/
def mention_cfg : BotConfig :=
  { group_id := 100, topic_id := none, bot_username := some "bot" }

/-- Fresh bot state for the group-mention scenario. -/
def mention_st : BotState :=
  { db := emptyDB, tsv := [] }

/-- Scenario E message: user alice writes "ping @bot" in group -200 ("Chess Club"),
not a reply, not the support destination. -/
def mention_msg : GroupMsg :=
  { message_id := 1, chat_id := -200, chat_title := some "Chess Club", user_id := 5,
    username := some "alice", first_name := "A", last_name := none,
    text := some "ping @bot", caption := none, entities := [] }

/-- C6: what the code actually does on Scenario E.  The mention token is stripped
("ping @bot" becomes "ping") and the tagged text is sent to the support
destination; but the four-argument `store_message_mapping` call then raises
`TypeError`, so no relay record is stored (the state is returned unchanged and the
forwarded copy's id 42 resolves to nothing) and the originating group receives the
error notice instead of the confirmation.  When no text remains after stripping
(message "@bot"), nothing is forwarded or recorded, as claimed. -/
theorem C6_group_mention_bug :
    handle_group_mention mention_cfg mention_st mention_msg 42
      = (mention_st,
         [Effect.sendMessage 100 "From group: Chess Club\nFrom user: @alice\n\nping",
          Effect.sendMessage (-200) "❌ An error occurred while forwarding your message."]) ∧
    get_user_from_group_message
        ((handle_group_mention mention_cfg mention_st mention_msg 42).1).db 42 = none ∧
    handle_group_mention mention_cfg mention_st { mention_msg with text := some "@bot" } 43
      = (mention_st, []) := by
  decide

end Peredast
